import Mathlib

/-!
Verification of the merjane order-fulfillment core.

The embedding models the product catalog core: the `Product` record
(src/db/schema via its uses), the three per-type processing strategies
(`src/services/impl/product-strategy.ts`), the strategy factory
(`product-strategy-factory.ts`) and the order processor
(`src/services/impl/order-processing.service.ts`).

Modelling conventions:
* JavaScript `Date` values are integer millisecond timestamps (`Int`);
  `new Date()` becomes an explicit `currentDate : Int` parameter.
* `available` and `leadTime` are `Nat`, encoding the data-model invariant
  that both are non-negative integers.
* The nullable date columns are `Option Int`.  The TypeScript sources read
  them through the non-null assertion `!`, which is erased at runtime; a
  `null` flowing into a relational comparison is coerced to `0` by
  JavaScript, which is exactly `Option.getD 0`.
* A strategy's deferred `notificationAction` closure is reified as the
  `Notification` it would send through the notification port.
* `Partial<Product>` updates: every `updatedProduct` the strategies build
  spreads the whole input product, so it is modelled as a full `Product`.
* The asynchronous processor is modelled as a state-passing function over
  the database rows producing an ordered event trace; `await` sequencing
  becomes the order of events in the trace.
-/

namespace Merjane

/-- One catalog row, as in the db schema used by the strategies. -/
structure Product where
  id : Nat
  name : String
  type : String
  available : Nat
  leadTime : Nat
  seasonStartDate : Option Int
  seasonEndDate : Option Int
  expiryDate : Option Int
deriving DecidableEq, Repr

/-- A message sent through the notification port
(`sendDelayNotification`, `sendOutOfStockNotification`,
`sendExpirationNotification`). -/
inductive Notification where
  | delay (leadTimeDays : Nat) (productName : String)
  | outOfStock (productName : String)
  | expiration (productName : String) (expiryDate : Int)
deriving DecidableEq, Repr

/-- `ProductProcessingResult` from product-strategy.ts. -/
structure ProductProcessingResult where
  shouldUpdateStock : Bool
  updatedProduct : Option Product := none
  notificationAction : Option Notification := none
deriving DecidableEq, Repr

/-- `NormalProductStrategy.processOrder`. -/
def NormalProductStrategy.processOrder (product : Product) : ProductProcessingResult :=
  if product.available > 0 then
    { shouldUpdateStock := true
      updatedProduct := some { product with available := product.available - 1 } }
  else if product.leadTime > 0 then
    { shouldUpdateStock := true
      updatedProduct := some { product with leadTime := product.leadTime }
      notificationAction := some (.delay product.leadTime product.name) }
  else
    { shouldUpdateStock := false }

/-- `1000 * 60 * 60 * 24`, as in SeasonalProductStrategy. -/
def millisecondsPerDay : Int := 1000 * 60 * 60 * 24

/-- `SeasonalProductStrategy.processOrder`; `currentDate` is `new Date()`. -/
def SeasonalProductStrategy.processOrder (currentDate : Int) (product : Product) :
    ProductProcessingResult :=
  if currentDate > product.seasonStartDate.getD 0
      ∧ currentDate < product.seasonEndDate.getD 0
      ∧ product.available > 0 then
    { shouldUpdateStock := true
      updatedProduct := some { product with available := product.available - 1 } }
  else if product.available = 0 then
    let restockDate := currentDate + (product.leadTime : Int) * millisecondsPerDay
    if restockDate > product.seasonEndDate.getD 0 then
      { shouldUpdateStock := true
        updatedProduct := some { product with available := 0 }
        notificationAction := some (.outOfStock product.name) }
    else
      { shouldUpdateStock := true
        updatedProduct := some { product with leadTime := product.leadTime }
        notificationAction := some (.delay product.leadTime product.name) }
  else if product.seasonStartDate.getD 0 > currentDate then
    { shouldUpdateStock := false
      notificationAction := some (.outOfStock product.name) }
  else
    { shouldUpdateStock := false }

/-- `ExpirableProductStrategy.processOrder`; `currentDate` is `new Date()`. -/
def ExpirableProductStrategy.processOrder (currentDate : Int) (product : Product) :
    ProductProcessingResult :=
  if product.available > 0 ∧ product.expiryDate.getD 0 > currentDate then
    { shouldUpdateStock := true
      updatedProduct := some { product with available := product.available - 1 } }
  else
    { shouldUpdateStock := true
      updatedProduct := some { product with available := 0 }
      notificationAction := some (.expiration product.name (product.expiryDate.getD 0)) }

/-- The three strategy classes the factory can instantiate. -/
inductive StrategyKind where
  | normal
  | seasonal
  | expirable
deriving DecidableEq, Repr

/-- Dispatch a selected strategy instance on a product
(`strategy.processOrder(product)`). -/
def runStrategy : StrategyKind → Int → Product → ProductProcessingResult
  | .normal, _, product => NormalProductStrategy.processOrder product
  | .seasonal, currentDate, product => SeasonalProductStrategy.processOrder currentDate product
  | .expirable, currentDate, product => ExpirableProductStrategy.processOrder currentDate product

/-- `ProductStrategyFactory.createStrategy`: the switch over the type tag;
the default arm throws `Unknown product type`. -/
def ProductStrategyFactory.createStrategy (productType : String) :
    Except String StrategyKind :=
  if productType = "NORMAL" then .ok .normal
  else if productType = "SEASONAL" then .ok .seasonal
  else if productType = "EXPIRABLE" then .ok .expirable
  else .error ("Unknown product type: " ++ productType)

/-- One observable effect of the order processor, in the order the awaited
calls happen: a drizzle `update ... set ... where id = _` or an invoked
notification action. -/
inductive Event where
  | stockUpdate (id : Nat) (updated : Product)
  | notify (n : Notification)
deriving DecidableEq, Repr

/-- The drizzle partial update: set every field of `updated` on the rows
whose `id` equals the filter id. -/
def dbUpdateWhereIdEq (db : List Product) (id : Nat) (updated : Product) :
    List Product :=
  db.map fun row => if row.id = id then updated else row

/-- `OrderProcessingService.processProductOrder`: select the strategy,
run it, persist the stock update if requested, then invoke the
notification action.  Returns the new table plus the event trace;
a thrown error becomes `Except.error`. -/
def OrderProcessingService.processProductOrder (currentDate : Int)
    (db : List Product) (product : Product) :
    Except String (List Product × List Event) :=
  match ProductStrategyFactory.createStrategy product.type with
  | .error e => .error e
  | .ok strategy =>
    let result := runStrategy strategy currentDate product
    let step :=
      if result.shouldUpdateStock then
        match result.updatedProduct with
        | some updated =>
          (dbUpdateWhereIdEq db product.id updated,
            [Event.stockUpdate product.id updated])
        | none => (db, [])
      else (db, [])
    let notifications := match result.notificationAction with
      | some n => [Event.notify n]
      | none => []
    .ok (step.1, step.2 ++ notifications)

/-- `OrderProcessingService.processOrder`: process the products
sequentially, awaiting each one; a failure propagates and halts the
remaining items. -/
def OrderProcessingService.processOrder (currentDate : Int) (db : List Product) :
    List Product → Except String (List Product × List Event)
  | [] => .ok (db, [])
  | product :: rest =>
    match OrderProcessingService.processProductOrder currentDate db product with
    | .error e => .error e
    | .ok (db', events) =>
      match OrderProcessingService.processOrder currentDate db' rest with
      | .error e => .error e
      | .ok (db'', events') => .ok (db'', events ++ events')

/-- Modelled from the spec: the three-case reference decision for the
NORMAL strategy (spec section 4.2): decrement when in stock; otherwise,
with a positive lead time, keep `available` at 0, carry the unchanged
`leadTime` and notify the delay; otherwise do nothing. -/
def normalReference (p : Product) : ProductProcessingResult :=
  if p.available > 0 then
    { shouldUpdateStock := true
      updatedProduct := some { p with available := p.available - 1 }
      notificationAction := none }
  else if p.leadTime > 0 then
    { shouldUpdateStock := true
      updatedProduct := some { p with available := 0, leadTime := p.leadTime }
      notificationAction := some (.delay p.leadTime p.name) }
  else
    { shouldUpdateStock := false
      updatedProduct := none
      notificationAction := none }

/-- Modelled from the spec: the two-case reference decision for the
EXPIRABLE strategy (spec section 4.4), for a product whose (non-null)
expiry instant is `expiry`: decrement when in stock and unexpired;
otherwise force `available` to 0 and notify expiration. -/
def expirableReference (currentDate expiry : Int) (p : Product) :
    ProductProcessingResult :=
  if p.available > 0 ∧ expiry > currentDate then
    { shouldUpdateStock := true
      updatedProduct := some { p with available := p.available - 1 }
      notificationAction := none }
  else
    { shouldUpdateStock := true
      updatedProduct := some { p with available := 0 }
      notificationAction := some (.expiration p.name expiry) }

/-- Claim C2: the NORMAL strategy equals the three-case reference
definition read off the spec: in stock ⇒ decrement by one, no
notification; out of stock with positive lead time ⇒ stock update with
`available` 0 and unchanged `leadTime` plus a delay notification with that
lead time and the name; otherwise ⇒ no update, no notification. -/
theorem normal_strategy_eq_reference (p : Product) :
    NormalProductStrategy.processOrder p = normalReference p := by
  unfold NormalProductStrategy.processOrder normalReference
  split_ifs with h1 h2 <;> try rfl
  have h0 : p.available = 0 := by omega
  cases p
  simp_all

/-- Claim C3: on any EXPIRABLE product with non-null `expiryDate`, the
strategy equals the two-case reference definition read off the spec:
in stock and unexpired ⇒ decrement by one, no notification; otherwise ⇒
force `available` to 0 and attach an expiration notification carrying the
name and the expiry instant. -/
theorem expirable_strategy_eq_reference (currentDate expiry : Int) (p : Product)
    (h : p.expiryDate = some expiry) :
    ExpirableProductStrategy.processOrder currentDate p
      = expirableReference currentDate expiry p := by
  unfold ExpirableProductStrategy.processOrder expirableReference
  rw [h]
  rfl

/-- Sample EXPIRABLE product used to witness C3. -/
def sampleMilk : Product :=
  { id := 1, name := "Milk", type := "EXPIRABLE", available := 5, leadTime := 15
    seasonStartDate := none, seasonEndDate := none, expiryDate := some 864000000 }

/-- Witness for C3 at the sample product, five days before its expiry. -/
theorem expirable_strategy_eq_reference_witness :
    ExpirableProductStrategy.processOrder 432000000 sampleMilk
      = expirableReference 432000000 864000000 sampleMilk :=
  expirable_strategy_eq_reference 432000000 864000000 sampleMilk rfl

/-- SEASONAL product before its season with zero stock: the out-of-stock
branch of the strategy, not the pre-season branch, handles it. -/
def preSeasonGrapesNoStock : Product :=
  { id := 2, name := "Grapes", type := "SEASONAL", available := 0, leadTime := 0
    seasonStartDate := some 10, seasonEndDate := some 20, expiryDate := none }

/-- Counterexample to claim C1: at `currentDate = 0`, strictly before the
season start 10, with `available = 0`, the strategy does request a stock
update and attaches a delay notification, not the claimed
no-update/out-of-stock result: the `available == 0` branch runs first. -/
theorem seasonal_preseason_counterexample :
    (SeasonalProductStrategy.processOrder 0 preSeasonGrapesNoStock).shouldUpdateStock = true
    ∧ (SeasonalProductStrategy.processOrder 0 preSeasonGrapesNoStock).notificationAction
        = some (.delay 0 "Grapes") := by
  decide

/-- Claim C1 (amended): for every SEASONAL product with `currentDate`
strictly before `seasonStartDate` and `available > 0`, processing requests
no stock update and attaches an out-of-stock notification carrying the
product's name; when `available = 0` the out-of-stock restock branch takes
precedence instead. -/
theorem seasonal_preseason_in_stock (currentDate : Int) (p : Product) (s : Int)
    (hs : p.seasonStartDate = some s) (hlt : currentDate < s)
    (hav : 0 < p.available) :
    SeasonalProductStrategy.processOrder currentDate p
      = { shouldUpdateStock := false
          updatedProduct := none
          notificationAction := some (.outOfStock p.name) } := by
  simp only [SeasonalProductStrategy.processOrder, hs, Option.getD_some]
  rw [if_neg (by rintro ⟨h, -⟩; omega), if_neg (by omega), if_pos (by omega)]

/-- SEASONAL product before its season holding stock. -/
def preSeasonGrapesInStock : Product :=
  { id := 2, name := "Grapes", type := "SEASONAL", available := 5, leadTime := 15
    seasonStartDate := some 2592000000, seasonEndDate := some 7776000000
    expiryDate := none }

/-- Witness for the amended C1 at a concrete pre-season product. -/
theorem seasonal_preseason_in_stock_witness :
    SeasonalProductStrategy.processOrder 0 preSeasonGrapesInStock
      = { shouldUpdateStock := false
          updatedProduct := none
          notificationAction := some (.outOfStock "Grapes") } :=
  seasonal_preseason_in_stock 0 preSeasonGrapesInStock 2592000000
    rfl (by decide) (by decide)

/-- Claim C4: SEASONAL product with `available = 0` (the in-season in-stock
path is then never taken): with `restockDate = currentDate + leadTime`
days, if `restockDate > seasonEndDate` the strategy requests a stock
update keeping `available` 0 and attaches an out-of-stock notification
with the name; otherwise it requests a stock update carrying the unchanged
`leadTime` and attaches a delay notification with that lead time and the
name. -/
theorem seasonal_out_of_stock_cases (currentDate : Int) (p : Product) (e : Int)
    (hav : p.available = 0) (he : p.seasonEndDate = some e) :
    (currentDate + (p.leadTime : Int) * millisecondsPerDay > e →
      SeasonalProductStrategy.processOrder currentDate p
        = { shouldUpdateStock := true
            updatedProduct := some { p with available := 0 }
            notificationAction := some (.outOfStock p.name) })
    ∧ (currentDate + (p.leadTime : Int) * millisecondsPerDay ≤ e →
      SeasonalProductStrategy.processOrder currentDate p
        = { shouldUpdateStock := true
            updatedProduct := some { p with leadTime := p.leadTime }
            notificationAction := some (.delay p.leadTime p.name) }) := by
  simp only [SeasonalProductStrategy.processOrder, he, Option.getD_some]
  rw [if_neg (by rintro ⟨-, -, h⟩; omega), if_pos hav]
  constructor
  · intro h
    rw [if_pos h]
  · intro h
    rw [if_neg (by omega)]

/-- SEASONAL product out of stock whose restock would land past season
end: 30-day lead time against 20 days left of season. -/
def outOfStockWatermelon : Product :=
  { id := 3, name := "Watermelon", type := "SEASONAL", available := 0, leadTime := 30
    seasonStartDate := some (-864000000), seasonEndDate := some 1728000000
    expiryDate := none }

/-- Witness for C4 at a concrete out-of-stock seasonal product whose
restock date exceeds the season end. -/
theorem seasonal_out_of_stock_cases_witness :
    SeasonalProductStrategy.processOrder 0 outOfStockWatermelon
      = { shouldUpdateStock := true
          updatedProduct := some { outOfStockWatermelon with available := 0 }
          notificationAction := some (.outOfStock "Watermelon") } :=
  (seasonal_out_of_stock_cases 0 outOfStockWatermelon 1728000000
    rfl rfl).1 (by decide)

/-- Claim C5: for a SEASONAL product holding stock, the strategy produces
the decrement-by-one stock update with no notification exactly when
`seasonStartDate < currentDate < seasonEndDate`, both comparisons strict;
at the boundary instants the in-season in-stock path is not taken. -/
theorem seasonal_in_window_iff (currentDate : Int) (p : Product) (s e : Int)
    (hs : p.seasonStartDate = some s) (he : p.seasonEndDate = some e)
    (hav : 0 < p.available) :
    (SeasonalProductStrategy.processOrder currentDate p
        = { shouldUpdateStock := true
            updatedProduct := some { p with available := p.available - 1 }
            notificationAction := none })
      ↔ (s < currentDate ∧ currentDate < e) := by
  simp only [SeasonalProductStrategy.processOrder, hs, he, Option.getD_some]
  constructor
  · intro h
    by_contra hw
    rw [if_neg (by rintro ⟨h1, h2, -⟩; exact hw ⟨h1, h2⟩), if_neg (by omega)] at h
    split_ifs at h <;> simp at h
  · rintro ⟨h1, h2⟩
    rw [if_pos ⟨h1, h2, hav⟩]

/-- SEASONAL product in the middle of its season holding stock. -/
def inSeasonWatermelon : Product :=
  { id := 3, name := "Watermelon", type := "SEASONAL", available := 5, leadTime := 15
    seasonStartDate := some (-864000000), seasonEndDate := some 4320000000
    expiryDate := none }

/-- Witness for C5: inside the window the decrement result is produced. -/
theorem seasonal_in_window_iff_witness :
    SeasonalProductStrategy.processOrder 0 inSeasonWatermelon
      = { shouldUpdateStock := true
          updatedProduct := some { inSeasonWatermelon with available := 4 }
          notificationAction := none } :=
  (seasonal_in_window_iff 0 inSeasonWatermelon (-864000000) 4320000000
    rfl rfl (by decide)).mpr ⟨by decide, by decide⟩

/-- SEASONAL product holding stock, processed at the exact instant of its
season start. -/
def startBoundaryWatermelon : Product :=
  { id := 4, name := "Watermelon", type := "SEASONAL", available := 5, leadTime := 15
    seasonStartDate := some 10, seasonEndDate := some 4320000000
    expiryDate := none }

/-- Counterexample to claim C6: at `currentDate = 10`, exactly the season
start, with stock available and the end far away, the strategy neither
updates stock nor decrements: the window comparison is strictly
open at the start, so no sale happens at the start instant. -/
theorem seasonal_start_boundary_counterexample :
    startBoundaryWatermelon.available > 0
    ∧ SeasonalProductStrategy.processOrder 10 startBoundaryWatermelon
        = { shouldUpdateStock := false
            updatedProduct := none
            notificationAction := none } := by
  decide

/-- Claim C6 (amended): the season window is the open interval
`(start, end)`: a SEASONAL product with `available > 0` processed at
`currentDate` exactly equal to `seasonStartDate` (with the start before
the end) is treated as out of season: no stock update, no decrement, and
no notification. -/
theorem seasonal_start_boundary_no_sale (p : Product) (s e : Int)
    (hs : p.seasonStartDate = some s) (he : p.seasonEndDate = some e)
    (hav : 0 < p.available) (_hse : s < e) :
    SeasonalProductStrategy.processOrder s p
      = { shouldUpdateStock := false
          updatedProduct := none
          notificationAction := none } := by
  simp only [SeasonalProductStrategy.processOrder, hs, he, Option.getD_some]
  rw [if_neg (by rintro ⟨h, -⟩; omega), if_neg (by omega), if_neg (by omega)]

/-- Witness for the amended C6 at the concrete boundary product. -/
theorem seasonal_start_boundary_no_sale_witness :
    SeasonalProductStrategy.processOrder 10 startBoundaryWatermelon
      = { shouldUpdateStock := false
          updatedProduct := none
          notificationAction := none } :=
  seasonal_start_boundary_no_sale startBoundaryWatermelon 10 4320000000
    rfl rfl (by decide) (by decide)

/-- Claim C9: no strategy ever drives `available` negative or increases
it: whenever a strategy's result carries an updated product, its
`available` is non-negative and at most the input's `available`. -/
theorem stock_never_increases (k : StrategyKind) (currentDate : Int)
    (p upd : Product)
    (h : (runStrategy k currentDate p).updatedProduct = some upd) :
    0 ≤ upd.available ∧ upd.available ≤ p.available := by
  cases k <;>
    simp only [runStrategy, NormalProductStrategy.processOrder,
      SeasonalProductStrategy.processOrder,
      ExpirableProductStrategy.processOrder] at h <;>
    split_ifs at h <;>
    dsimp only at h
  all_goals injection h with h
  all_goals subst h
  all_goals refine ⟨Nat.zero_le _, ?_⟩
  all_goals dsimp only
  all_goals omega

/-- Sample NORMAL product with stock, used to witness C9. -/
def sampleUSBCable : Product :=
  { id := 1, name := "USB Cable", type := "NORMAL", available := 5, leadTime := 15
    seasonStartDate := none, seasonEndDate := none, expiryDate := none }

/-- Witness for C9: the NORMAL strategy's update of the sample product. -/
theorem stock_never_increases_witness :
    0 ≤ ({ sampleUSBCable with available := 4 } : Product).available
    ∧ ({ sampleUSBCable with available := 4 } : Product).available
        ≤ sampleUSBCable.available :=
  stock_never_increases .normal 0 sampleUSBCable
    { sampleUSBCable with available := 4 } (by decide)

/-- Claim C8: an unrecognized type tag makes the factory fail with the
`Unknown product type` error instead of defaulting to a strategy, and when
such a product is reached inside `processOrder`, the error propagates out
and the remaining products are not processed: the run produces no table
and no events at all for them. -/
theorem unsupported_type_fails_and_halts (t : String)
    (h1 : t ≠ "NORMAL") (h2 : t ≠ "SEASONAL") (h3 : t ≠ "EXPIRABLE")
    (currentDate : Int) (db : List Product) (p : Product) (rest : List Product)
    (hp : p.type = t) :
    ProductStrategyFactory.createStrategy t
        = .error ("Unknown product type: " ++ t)
    ∧ OrderProcessingService.processOrder currentDate db (p :: rest)
        = .error ("Unknown product type: " ++ t) := by
  have hc : ProductStrategyFactory.createStrategy t
      = .error ("Unknown product type: " ++ t) := by
    simp only [ProductStrategyFactory.createStrategy, if_neg h1, if_neg h2, if_neg h3]
  refine ⟨hc, ?_⟩
  simp only [OrderProcessingService.processOrder,
    OrderProcessingService.processProductOrder, hp, hc]

/-- Product carrying a type tag outside the three supported ones. -/
def giftBox : Product :=
  { id := 9, name := "Gift Box", type := "GIFT", available := 3, leadTime := 1
    seasonStartDate := none, seasonEndDate := none, expiryDate := none }

/-- Witness for C8: processing a batch headed by the GIFT-typed product
fails with the factory's error and never reaches the rest. -/
theorem unsupported_type_fails_and_halts_witness :
    ProductStrategyFactory.createStrategy "GIFT"
        = .error "Unknown product type: GIFT"
    ∧ OrderProcessingService.processOrder 0 [giftBox] (giftBox :: [sampleUSBCable])
        = .error "Unknown product type: GIFT" :=
  unsupported_type_fails_and_halts "GIFT" (by decide) (by decide) (by decide)
    0 [giftBox] giftBox [sampleUSBCable] rfl

/-- Whether an event is a notification invocation. -/
def Event.isNotify : Event → Bool
  | .notify _ => true
  | .stockUpdate _ _ => false

/-- A trace in which every stock update precedes every notification:
once a notification has fired, no further stock update appears. -/
def updatesBeforeNotifies : List Event → Bool
  | [] => true
  | e :: rest =>
    if e.isNotify then rest.all Event.isNotify else updatesBeforeNotifies rest

/-- In the trace of a single product's processing, the persistence update
always precedes the notification invocation. -/
theorem processProductOrder_updates_first (currentDate : Int)
    (db : List Product) (p : Product) (db' : List Product) (tr : List Event)
    (h : OrderProcessingService.processProductOrder currentDate db p
        = .ok (db', tr)) :
    updatesBeforeNotifies tr = true := by
  unfold OrderProcessingService.processProductOrder at h
  rcases hcs : ProductStrategyFactory.createStrategy p.type with e | k <;>
    rw [hcs] at h
  · exact absurd h (by simp)
  · rcases hb : (runStrategy k currentDate p).shouldUpdateStock <;>
      rcases hu : (runStrategy k currentDate p).updatedProduct with _ | upd <;>
      rcases hn : (runStrategy k currentDate p).notificationAction with _ | n <;>
      simp only [hb, hu, hn, if_true, if_false, Bool.false_eq_true,
        ite_true, ite_false, Except.ok.injEq, Prod.mk.injEq] at h <;>
      obtain ⟨-, htr⟩ := h <;>
      rw [← htr] <;>
      rfl

/-- Claim C7: `processOrder` handles the products strictly one at a time
in sequence order: the head product's strategy runs against the incoming
table, its stock update is applied to produce the table against which the
whole rest of the sequence is processed, the traces are concatenated in
that order, and within the head's own trace the stock update precedes the
notification, so a notification never fires before its product's stock
change is applied. -/
theorem processOrder_sequential (currentDate : Int) (db db'' : List Product)
    (p : Product) (rest : List Product) (tr : List Event)
    (h : OrderProcessingService.processOrder currentDate db (p :: rest)
        = .ok (db'', tr)) :
    ∃ db' tr₁ tr₂,
      OrderProcessingService.processProductOrder currentDate db p
          = .ok (db', tr₁)
      ∧ OrderProcessingService.processOrder currentDate db' rest
          = .ok (db'', tr₂)
      ∧ tr = tr₁ ++ tr₂
      ∧ updatesBeforeNotifies tr₁ = true := by
  unfold OrderProcessingService.processOrder at h
  split at h
  next e hp => exact absurd h (by simp)
  next db' tr₁ hp =>
    split at h
    next e hr => exact absurd h (by simp)
    next db₂ tr₂ hr =>
      simp only [Except.ok.injEq, Prod.mk.injEq] at h
      obtain ⟨hdb, htr⟩ := h
      subst hdb
      exact ⟨db', tr₁, tr₂, hp, hr, htr.symm,
        processProductOrder_updates_first currentDate db p db' tr₁ hp⟩

/-- NORMAL product out of stock with a positive lead time: processing it
yields both a stock update and a delay notification. -/
def restockCable : Product :=
  { id := 1, name := "USB Cable", type := "NORMAL", available := 0, leadTime := 15
    seasonStartDate := none, seasonEndDate := none, expiryDate := none }

/-- Witness for C7 on a one-element batch whose product produces both a
stock update and a notification. -/
theorem processOrder_sequential_witness :
    ∃ db' tr₁ tr₂,
      OrderProcessingService.processProductOrder 0 [restockCable] restockCable
          = .ok (db', tr₁)
      ∧ OrderProcessingService.processOrder 0 db' [] = .ok ([restockCable], tr₂)
      ∧ [Event.stockUpdate 1 restockCable,
          Event.notify (.delay 15 "USB Cable")] = tr₁ ++ tr₂
      ∧ updatesBeforeNotifies tr₁ = true :=
  processOrder_sequential 0 [restockCable] [restockCable] restockCable []
    [Event.stockUpdate 1 restockCable, Event.notify (.delay 15 "USB Cable")]
    rfl

/-- Every updated product a strategy emits keeps the input product's id:
each one is built by spreading the input product. -/
theorem runStrategy_preserves_id (k : StrategyKind) (currentDate : Int)
    (p upd : Product)
    (h : (runStrategy k currentDate p).updatedProduct = some upd) :
    upd.id = p.id := by
  cases k <;>
    simp only [runStrategy, NormalProductStrategy.processOrder,
      SeasonalProductStrategy.processOrder,
      ExpirableProductStrategy.processOrder] at h <;>
    split_ifs at h <;>
    dsimp only at h
  all_goals injection h with h
  all_goals subst h
  all_goals rfl

/-- Claim C10: frame property of `processProductOrder`: only the rows
whose id equals the input product's id can change (every row with a
different id is returned unchanged at its position), every stock-update
event is filtered by that id and carries an updated product with that same
id, and when the strategy result does not request a stock update or has no
updated product, the table is returned untouched with no stock-update
event at all. -/
theorem processProductOrder_frame (currentDate : Int) (db db' : List Product)
    (p : Product) (tr : List Event)
    (h : OrderProcessingService.processProductOrder currentDate db p
        = .ok (db', tr)) :
    (∀ (i : Nat) (row : Product), db[i]? = some row → row.id ≠ p.id →
        db'[i]? = some row)
    ∧ (∀ pid upd, Event.stockUpdate pid upd ∈ tr → pid = p.id ∧ upd.id = p.id)
    ∧ (∀ k, ProductStrategyFactory.createStrategy p.type = .ok k →
        ((runStrategy k currentDate p).shouldUpdateStock = false
          ∨ (runStrategy k currentDate p).updatedProduct = none) →
        db' = db ∧ ∀ pid upd, Event.stockUpdate pid upd ∉ tr) := by
  unfold OrderProcessingService.processProductOrder at h
  rcases hcs : ProductStrategyFactory.createStrategy p.type with e | k₀ <;>
    rw [hcs] at h
  · exact absurd h (by simp)
  · rcases hb : (runStrategy k₀ currentDate p).shouldUpdateStock <;>
      rcases hu : (runStrategy k₀ currentDate p).updatedProduct with _ | upd <;>
      rcases hn : (runStrategy k₀ currentDate p).notificationAction with _ | n <;>
      simp only [hb, hu, hn, if_true, if_false, Bool.false_eq_true,
        ite_true, ite_false, Except.ok.injEq, Prod.mk.injEq] at h <;>
      obtain ⟨hdb, htr⟩ := h <;>
      subst hdb <;> subst htr <;>
      refine ⟨?_, ?_, ?_⟩
    -- shouldUpdateStock = false, updatedProduct = none, no notification
    · intro i row hi hne
      exact hi
    · intro pid upd' hmem
      exact absurd hmem (List.not_mem_nil _)
    · intro k hk hcond
      exact ⟨rfl, fun pid upd' hmem => List.not_mem_nil _ hmem⟩
    -- shouldUpdateStock = false, updatedProduct = none, notification
    · intro i row hi hne
      exact hi
    · intro pid upd' hmem
      exact Event.noConfusion (List.mem_singleton.mp hmem)
    · intro k hk hcond
      exact ⟨rfl, fun pid upd' hmem =>
        Event.noConfusion (List.mem_singleton.mp hmem)⟩
    -- shouldUpdateStock = false, updatedProduct present, no notification
    · intro i row hi hne
      exact hi
    · intro pid upd' hmem
      exact absurd hmem (List.not_mem_nil _)
    · intro k hk hcond
      exact ⟨rfl, fun pid upd' hmem => List.not_mem_nil _ hmem⟩
    -- shouldUpdateStock = false, updatedProduct present, notification
    · intro i row hi hne
      exact hi
    · intro pid upd' hmem
      exact Event.noConfusion (List.mem_singleton.mp hmem)
    · intro k hk hcond
      exact ⟨rfl, fun pid upd' hmem =>
        Event.noConfusion (List.mem_singleton.mp hmem)⟩
    -- shouldUpdateStock = true, updatedProduct = none, no notification
    · intro i row hi hne
      exact hi
    · intro pid upd' hmem
      exact absurd hmem (List.not_mem_nil _)
    · intro k hk hcond
      exact ⟨rfl, fun pid upd' hmem => List.not_mem_nil _ hmem⟩
    -- shouldUpdateStock = true, updatedProduct = none, notification
    · intro i row hi hne
      exact hi
    · intro pid upd' hmem
      exact Event.noConfusion (List.mem_singleton.mp hmem)
    · intro k hk hcond
      exact ⟨rfl, fun pid upd' hmem =>
        Event.noConfusion (List.mem_singleton.mp hmem)⟩
    -- shouldUpdateStock = true, update applied, no notification
    · intro i row hi hne
      simp only [dbUpdateWhereIdEq, List.getElem?_map, hi, Option.map_some']
      rw [if_neg hne]
    · intro pid upd' hmem
      have hm := List.mem_singleton.mp hmem
      injection hm with h1 h2
      refine ⟨h1, ?_⟩
      rw [h2]
      exact runStrategy_preserves_id k₀ currentDate p upd hu
    · intro k hk hcond
      injection hk with hk
      subst hk
      rcases hcond with hc | hc
      · rw [hb] at hc
        exact Bool.noConfusion hc
      · rw [hu] at hc
        exact Option.noConfusion hc
    -- shouldUpdateStock = true, update applied, notification
    · intro i row hi hne
      simp only [dbUpdateWhereIdEq, List.getElem?_map, hi, Option.map_some']
      rw [if_neg hne]
    · intro pid upd' hmem
      simp only [List.singleton_append, List.mem_cons, List.mem_singleton,
        List.not_mem_nil, or_false] at hmem
      rcases hmem with hm | hm
      · injection hm with h1 h2
        refine ⟨h1, ?_⟩
        rw [h2]
        exact runStrategy_preserves_id k₀ currentDate p upd hu
      · exact Event.noConfusion hm
    · intro k hk hcond
      injection hk with hk
      subst hk
      rcases hcond with hc | hc
      · rw [hb] at hc
        exact Bool.noConfusion hc
      · rw [hu] at hc
        exact Option.noConfusion hc

/-- Two-row table used to witness C10. -/
def twoRowTable : List Product :=
  [restockCable, sampleMilk]

/-- Witness for C10: processing the first row of the two-row table leaves
the second row in place, tags the single stock-update event with the first
row's id, and keeps that id on the updated product. -/
theorem processProductOrder_frame_witness :
    (∀ (i : Nat) (row : Product),
        twoRowTable[i]? = some row → row.id ≠ restockCable.id →
        (dbUpdateWhereIdEq twoRowTable restockCable.id restockCable)[i]?
          = some row)
    ∧ (∀ pid upd,
        Event.stockUpdate pid upd
            ∈ [Event.stockUpdate 1 restockCable,
                Event.notify (.delay 15 "USB Cable")] →
        pid = restockCable.id ∧ upd.id = restockCable.id)
    ∧ (∀ k, ProductStrategyFactory.createStrategy restockCable.type = .ok k →
        ((runStrategy k 0 restockCable).shouldUpdateStock = false
          ∨ (runStrategy k 0 restockCable).updatedProduct = none) →
        dbUpdateWhereIdEq twoRowTable restockCable.id restockCable = twoRowTable
          ∧ ∀ pid upd,
            Event.stockUpdate pid upd
              ∉ [Event.stockUpdate 1 restockCable,
                  Event.notify (.delay 15 "USB Cable")]) :=
  processProductOrder_frame 0 twoRowTable
    (dbUpdateWhereIdEq twoRowTable restockCable.id restockCable)
    restockCable
    [Event.stockUpdate 1 restockCable, Event.notify (.delay 15 "USB Cable")]
    rfl

end Merjane
